import Mathlib

/-!
Shallow embedding of the NovaStock workspace/inventory core.

Each definition is translated from the source of the repository:
  * `src/services/workspaceService.ts`   — workspace / membership / invitation operations
  * `src/services/inventoryService.ts`   — inventory items and the low-stock filter
  * `src/services/supplierService.ts`    — supplier rows
  * the purchase-order service (`purchaseOrderService`) — reorder composite operation
  * `src/components/inventory/PurchaseOrderModal.tsx` — order total and prefill quantity
  * the AI reorder email modal — the `suggestedQty` business rule
  * `supabase/migrations/...sql`         — foreign-key delete actions (SET NULL / RESTRICT)

The relational store is modelled as explicit lists of rows; a fallible
store insert is modelled by a Boolean success flag supplied to the
operation (the Supabase client returns `{data, error}` and the service
code branches on `error`).  Timestamps are integers, monetary amounts
are rationals, machine numbers of the TypeScript layer are integers.
-/

namespace NovaStock

/-- Workspace role enum (`workspace_role` in SQL, `WorkspaceRole` in TS). -/
inductive Role where
  | admin
  | member
deriving Repr, DecidableEq

/-- A row of `workspaces` (fields used by the service layer). -/
structure Workspace where
  id : String
  name : String
  created_by : Option String
deriving Repr, DecidableEq

/-- A row of `workspace_members`. -/
structure Membership where
  workspace_id : String
  user_id : String
  role : Role
deriving Repr, DecidableEq

/-- A row of `workspace_invitations`; `expires_at` is a timestamp. -/
structure Invitation where
  id : String
  workspace_id : String
  email : String
  role : Role
  expires_at : Int
deriving Repr, DecidableEq

/-- A row of `suppliers` (fields used by the service layer). -/
structure Supplier where
  id : String
  workspace_id : String
  company_name : String
deriving Repr, DecidableEq

/-- A row of `inventory_items` (`InventoryItem` in `inventoryService.ts`).
`quantity` and `min_quantity` are SQL INTEGER columns; `unit_price` is a
nullable DECIMAL, modelled as `Option ℚ`. -/
structure InventoryItem where
  id : String
  workspace_id : String
  supplier_id : Option String
  name : String
  sku : Option String
  description : Option String
  quantity : Int
  min_quantity : Int
  unit_price : Option ℚ
deriving Repr, DecidableEq

/-- Purchase-order status enum from the SQL migration. -/
inductive POStatus where
  | draft
  | submitted
  | approved
  | ordered
  | received
  | cancelled
deriving Repr, DecidableEq

/-- A row of `purchase_orders` (fields used by the reorder flow).  Note
the table has no total column: the order total is derived on read. -/
structure PurchaseOrder where
  id : String
  workspace_id : String
  supplier_id : String
  status : POStatus
  created_by : Option String
deriving Repr, DecidableEq

/-- A row of `purchase_order_items`. -/
structure PurchaseOrderItem where
  purchase_order_id : String
  inventory_item_id : Option String
  item_name : String
  quantity : Int
  unit_price : Option ℚ
deriving Repr, DecidableEq

/-! ## Low-stock predicate and filter (`inventoryService.getLowStockItems`,
dashboard `loadDashboardData`) -/

/-- The low-stock predicate used verbatim in `getLowStockItems`
(`item.quantity <= item.min_quantity`) and in the dashboard
(`items.filter((item) => item.quantity <= item.min_quantity)`). -/
def isLowStock (item : InventoryItem) : Bool :=
  item.quantity ≤ item.min_quantity

/-- Client-side filter of `getLowStockItems`:
`(data || []).filter(item => item.quantity <= item.min_quantity)`. -/
def getLowStockItems (rows : List InventoryItem) : List InventoryItem :=
  rows.filter fun item => item.quantity ≤ item.min_quantity

/-- Dashboard low-stock computation from `loadDashboardData`:
`items.filter((item) => item.quantity <= item.min_quantity)`. -/
def dashboardLowStock (items : List InventoryItem) : List InventoryItem :=
  items.filter fun item => item.quantity ≤ item.min_quantity

/-! ## Order total and suggested reorder quantity (`PurchaseOrderModal.tsx`,
AI reorder email modal) -/

/-- A line item of the purchase-order modal (`OrderItem` in
`PurchaseOrderModal.tsx`). -/
structure OrderItem where
  inventory_item_id : Option String
  item_name : String
  quantity : Int
  unit_price : Option ℚ
deriving Repr, DecidableEq

/-- Embeds `totalAmount` from `PurchaseOrderModal.tsx`:
`orderItems.reduce((sum, item) => sum + (item.unit_price || 0) * item.quantity, 0)`. -/
def totalAmount (orderItems : List OrderItem) : ℚ :=
  orderItems.foldl (fun sum item => sum + (item.unit_price.getD 0) * item.quantity) 0

/-- Prefill quantity for a single preselected (flagged) item in
`PurchaseOrderModal.tsx`:
`Math.max(1, preselectedItem.min_quantity - preselectedItem.quantity)`. -/
def prefillReorderQty (item : InventoryItem) : Int :=
  max 1 (item.min_quantity - item.quantity)

/-- Embeds `suggestedQty` of the AI reorder email modal:
`item ? Math.max(1, item.min_quantity * 2 - item.quantity) : 10`. -/
def suggestedQty (item : Option InventoryItem) : Int :=
  match item with
  | some it => max 1 (it.min_quantity * 2 - it.quantity)
  | none => 10

/-! ## Workspace service state and operations (`workspaceService.ts`) -/

/-- The slice of the relational store touched by the workspace service:
`workspaces`, `workspace_members`, `workspace_invitations`. -/
structure WsDb where
  workspaces : List Workspace
  memberships : List Membership
  invitations : List Invitation
deriving Repr, DecidableEq

/-- Embeds `workspaceService.createWorkspace(name, userId)`: inserts the
workspace row; on workspace-insert failure returns the error; then
inserts the admin membership; on membership-insert failure performs the
compensating delete `workspaces.delete().eq("id", workspace.id)` and
returns the error.  `newId` is the id the store assigns to the new row;
`wsInsertOk` / `memberInsertOk` model whether each store insert
succeeds. -/
def createWorkspace (db : WsDb) (name userId newId : String)
    (wsInsertOk memberInsertOk : Bool) : WsDb × Option Workspace :=
  if !wsInsertOk then
    (db, none)
  else
    let ws : Workspace := { id := newId, name := name, created_by := some userId }
    let db1 : WsDb := { db with workspaces := db.workspaces ++ [ws] }
    if !memberInsertOk then
      ({ db1 with workspaces := db1.workspaces.filter fun w => w.id ≠ newId }, none)
    else
      ({ db1 with
          memberships := db1.memberships ++
            [{ workspace_id := newId, user_id := userId, role := Role.admin }] },
        some ws)

/-- Embeds `workspaceService.getUserRole(workspaceId, userId)`: selects `role`
from `workspace_members` filtered by both ids with `.single()`; when no
row matches, `data` is null and the returned role is null (`data?.role`).
The store enforces UNIQUE (workspace_id, user_id), so `find?` returns
the unique matching row when one exists. -/
def getUserRole (db : WsDb) (workspaceId userId : String) : Option Role :=
  (db.memberships.find? fun m =>
      m.workspace_id = workspaceId ∧ m.user_id = userId).map (·.role)

/-- Embeds `isAdmin` from the workspace context provider:
`const isAdmin = currentUserRole === "admin"`. -/
def isAdmin (currentUserRole : Option Role) : Bool :=
  currentUserRole = some Role.admin

/-- Embeds `workspaceService.acceptInvitation(invitationId, userId)`: fetches
the invitation by id (`.single()`; not-found is an error), inserts the
membership with the role stored on the invitation, returns the error if that insert
fails, and only then deletes the invitation row.  The function never
reads `expires_at`, so `now` does not appear.  The Boolean result is
true when an error is returned. -/
def acceptInvitation (db : WsDb) (invitationId userId : String)
    (memberInsertOk : Bool) : WsDb × Bool :=
  match db.invitations.find? fun inv => inv.id = invitationId with
  | none => (db, true)
  | some inv =>
    if !memberInsertOk then
      (db, true)
    else
      let db1 : WsDb := { db with
        memberships := db.memberships ++
          [{ workspace_id := inv.workspace_id, user_id := userId, role := inv.role }] }
      ({ db1 with invitations := db1.invitations.filter fun i => i.id ≠ invitationId },
        false)

/-! ## Reorder purchase-order composite operation
(`purchaseOrderService.createReorderPurchaseOrder`) -/

/-- The slice of the store touched by the reorder flow. -/
structure PoDb where
  orders : List PurchaseOrder
  orderItems : List PurchaseOrderItem
deriving Repr, DecidableEq

/-- An element of the `items` array passed to
`createReorderPurchaseOrder` (the parameter type of the service,
`{ inventory_item_id: string; item_name: string; quantity: number; unit_price?: number }`). -/
structure ReorderLineItem where
  inventory_item_id : String
  item_name : String
  quantity : Int
  unit_price : Option ℚ
deriving Repr, DecidableEq

/-- The row `addPurchaseOrderItem` inserts for one line item of the
reorder loop body. -/
def mkOrderItemRow (orderId : String) (it : ReorderLineItem) : PurchaseOrderItem :=
  { purchase_order_id := orderId
    inventory_item_id := some it.inventory_item_id
    item_name := it.item_name
    quantity := it.quantity
    unit_price := it.unit_price }

/-- The `for (const item of items)` loop of `createReorderPurchaseOrder`:
each `addPurchaseOrderItem` call either inserts its row or throws.
`okCount` models how many item inserts succeed before one fails; when
`okCount ≥ items.length` every insert succeeds.  The Boolean result is
true when an insert threw (aborting the loop with no rollback). -/
def insertReorderItems (db : PoDb) (orderId : String)
    (items : List ReorderLineItem) (okCount : Nat) : PoDb × Bool :=
  match items, okCount with
  | [], _ => (db, false)
  | _ :: _, 0 => (db, true)
  | it :: rest, Nat.succ k =>
      insertReorderItems
        { db with orderItems := db.orderItems ++ [mkOrderItemRow orderId it] }
        orderId rest k

/-- Embeds `purchaseOrderService.createReorderPurchaseOrder(workspaceId,
supplierId, items, userId)`: first `createPurchaseOrder({workspace_id,
supplier_id, status: "draft", created_by: userId})` (throws on failure,
nothing inserted), then the item loop; a throw partway leaves the order
row and the already-inserted items in place.  Returns the order on full
success, `none` on a throw. -/
def createReorderPurchaseOrder (db : PoDb) (workspaceId supplierId : String)
    (items : List ReorderLineItem) (userId : Option String) (newOrderId : String)
    (orderInsertOk : Bool) (okCount : Nat) : PoDb × Option PurchaseOrder :=
  if !orderInsertOk then
    (db, none)
  else
    let order : PurchaseOrder :=
      { id := newOrderId
        workspace_id := workspaceId
        supplier_id := supplierId
        status := POStatus.draft
        created_by := userId }
    let db1 : PoDb := { db with orders := db.orders ++ [order] }
    let res := insertReorderItems db1 newOrderId items okCount
    if res.2 then (res.1, none) else (res.1, some order)

/-- The rows of `purchase_order_items` belonging to one order. -/
def itemsOfOrder (db : PoDb) (orderId : String) : List PurchaseOrderItem :=
  db.orderItems.filter fun it => it.purchase_order_id = orderId

/-! ## Supplier deletion semantics (foreign keys of the SQL migration) -/

/-- The slice of the store relevant to deleting a supplier row. -/
structure CatalogDb where
  suppliers : List Supplier
  items : List InventoryItem
  orders : List PurchaseOrder
deriving Repr, DecidableEq

/-- Whether any `purchase_orders` row references the supplier
(`supplier_id UUID NOT NULL REFERENCES suppliers(id) ON DELETE RESTRICT`). -/
def supplierReferencedByOrder (db : CatalogDb) (sid : String) : Bool :=
  db.orders.any fun o => o.supplier_id = sid

/-- Deletion of a `suppliers` row under the foreign-key
actions: `purchase_orders.supplier_id ... ON DELETE RESTRICT` makes the
delete fail (returning an error, state unchanged) while any order
references the supplier; otherwise the row is deleted and
`inventory_items.supplier_id ... ON DELETE SET NULL` nulls the
reference on every referencing item.  The Boolean result is true when
the delete was rejected. -/
def deleteSupplierRow (db : CatalogDb) (sid : String) : CatalogDb × Bool :=
  if supplierReferencedByOrder db sid then
    (db, true)
  else
    ({ suppliers := db.suppliers.filter fun s => s.id ≠ sid
       items := db.items.map fun i =>
         if i.supplier_id = some sid then { i with supplier_id := none } else i
       orders := db.orders },
      false)

/-! ## Theorems -/

/-- Folding the running-sum accumulator of `totalAmount` equals adding the
sum of the per-item contributions. -/
theorem foldl_add_map_sum (f : OrderItem → ℚ) (l : List OrderItem) :
    ∀ a : ℚ, l.foldl (fun sum item => sum + f item) a = a + (l.map f).sum := by
  induction l with
  | nil => intro a; simp
  | cons x xs ih =>
      intro a
      simp only [List.foldl_cons, List.map_cons, List.sum_cons, ih, add_assoc]

/-- C2: the low-stock predicate is exactly `quantity ≤ min_quantity`,
depends on no other field (in particular not on supplier presence) and
not on the position of the item in any list, and both the service filter
and the dashboard filter keep exactly the low-stock items in input
order. -/
theorem low_stock_filter_spec :
    (∀ i : InventoryItem, isLowStock i = true ↔ i.quantity ≤ i.min_quantity) ∧
    (∀ (i : InventoryItem) (s : Option String),
      isLowStock { i with supplier_id := s } = isLowStock i) ∧
    (∀ rows : List InventoryItem,
      getLowStockItems rows = rows.filter isLowStock ∧
      dashboardLowStock rows = getLowStockItems rows ∧
      (getLowStockItems rows).Sublist rows ∧
      (∀ i : InventoryItem, i ∈ getLowStockItems rows ↔ i ∈ rows ∧ isLowStock i = true)) := by
  refine ⟨fun i => by simp [isLowStock], fun i s => rfl, fun rows => ⟨rfl, rfl, ?_, ?_⟩⟩
  · exact List.filter_sublist rows
  · intro i
    simp [getLowStockItems, List.mem_filter, isLowStock]

/-- C7: the derived order total is the sum over the line items of
`quantity * unit_price`, a missing `unit_price` contributing `0`; a
single line item with quantity 5 and unit price 2.50 totals 12.50. -/
theorem total_amount_spec :
    (∀ items : List OrderItem,
      totalAmount items =
        (items.map fun it => (it.unit_price.getD 0) * (it.quantity : ℚ)).sum) ∧
    totalAmount [{ inventory_item_id := none, item_name := "Widget",
                   quantity := 5, unit_price := some (5 / 2) }] = 25 / 2 := by
  constructor
  · intro items
    simpa [totalAmount] using
      foldl_add_map_sum (fun it => (it.unit_price.getD 0) * (it.quantity : ℚ)) items 0
  · norm_num [totalAmount]

/-- C8: the prefill quantity for a single flagged item is
`max 1 (min_quantity - quantity)`, the AI-email suggestion is
`max 1 (min_quantity * 2 - quantity)`, and both are at least 1. -/
theorem suggested_reorder_qty_spec (item : InventoryItem) :
    prefillReorderQty item = max 1 (item.min_quantity - item.quantity) ∧
    1 ≤ prefillReorderQty item ∧
    suggestedQty (some item) = max 1 (item.min_quantity * 2 - item.quantity) ∧
    1 ≤ suggestedQty (some item) := by
  exact ⟨rfl, le_max_left 1 _, rfl, le_max_left 1 _⟩

/-- C5: when no membership row matches the (workspace, user) pair, the
role lookup returns absent (never a default role), and an absent role
fails the admin gate (`isAdmin` is false), i.e. deny-by-default. -/
theorem get_user_role_absent (db : WsDb) (w u : String)
    (h : ∀ m ∈ db.memberships, ¬(m.workspace_id = w ∧ m.user_id = u)) :
    getUserRole db w u = none ∧ isAdmin (getUserRole db w u) = false := by
  have hnone :
      (db.memberships.find? fun m => m.workspace_id = w ∧ m.user_id = u) = none := by
    rw [List.find?_eq_none]
    intro m hm hpm
    exact h m hm (of_decide_eq_true hpm)
  have habs : getUserRole db w u = none := by
    simp only [getUserRole, hnone, Option.map_none']
  exact ⟨habs, by rw [habs]; rfl⟩

/-- Witness for C5: in a store whose only membership binds alice to w1,
the lookup for bob in w1 is absent and bob is not admin. -/
theorem get_user_role_absent_witness :
    (∀ m ∈ (WsDb.mk [] [⟨"w1", "alice", Role.admin⟩] []).memberships,
      ¬(m.workspace_id = "w1" ∧ m.user_id = "bob")) ∧
    (getUserRole (WsDb.mk [] [⟨"w1", "alice", Role.admin⟩] []) "w1" "bob" = none ∧
     isAdmin (getUserRole (WsDb.mk [] [⟨"w1", "alice", Role.admin⟩] []) "w1" "bob") = false) :=
  ⟨by decide, get_user_role_absent (WsDb.mk [] [⟨"w1", "alice", Role.admin⟩] [])
    "w1" "bob" (by decide)⟩

/-- C1: with fresh id `newId`, a successful `createWorkspace` leaves
exactly one membership row with role admin, the given user and the new
workspace id, and returns the new workspace; when the membership insert
fails, the compensating delete restores the workspace table exactly, no
membership is added, and an error is returned. -/
theorem create_workspace_spec (db : WsDb) (name userId newId : String)
    (hfreshW : ∀ w ∈ db.workspaces, w.id ≠ newId)
    (hfreshM : ∀ m ∈ db.memberships, m.workspace_id ≠ newId) :
    ((createWorkspace db name userId newId true true).2 =
        some { id := newId, name := name, created_by := some userId } ∧
      ((createWorkspace db name userId newId true true).1.memberships.countP fun m =>
        m.workspace_id = newId ∧ m.user_id = userId ∧ m.role = Role.admin) = 1) ∧
    ((createWorkspace db name userId newId true false).2 = none ∧
      (createWorkspace db name userId newId true false).1.workspaces = db.workspaces ∧
      (createWorkspace db name userId newId true false).1.memberships = db.memberships) := by
  refine ⟨⟨rfl, ?_⟩, ⟨rfl, ?_, rfl⟩⟩
  · have hstep : (createWorkspace db name userId newId true true).1.memberships =
        db.memberships ++ [⟨newId, userId, Role.admin⟩] := rfl
    rw [hstep, List.countP_append]
    have h0 : (db.memberships.countP fun m =>
        m.workspace_id = newId ∧ m.user_id = userId ∧ m.role = Role.admin) = 0 := by
      rw [List.countP_eq_zero]
      intro m hm hpm
      exact hfreshM m hm (of_decide_eq_true hpm).1
    rw [h0]
    simp
  · simp only [createWorkspace, Bool.not_true, Bool.false_eq_true, if_false,
      Bool.not_false, if_true]
    rw [List.filter_append, List.filter_eq_self.mpr, List.filter_cons]
    · simp
    · intro w hw
      simpa using hfreshW w hw

/-- Witness for C1: creating workspace w1 for alice in the empty store. -/
theorem create_workspace_spec_witness :
    (∀ w ∈ (WsDb.mk [] [] []).workspaces, w.id ≠ "w1") ∧
    (∀ m ∈ (WsDb.mk [] [] []).memberships, m.workspace_id ≠ "w1") ∧
    (((createWorkspace (WsDb.mk [] [] []) "Acme" "alice" "w1" true true).2 =
        some { id := "w1", name := "Acme", created_by := some "alice" } ∧
      ((createWorkspace (WsDb.mk [] [] []) "Acme" "alice" "w1" true true).1.memberships.countP
          fun m => m.workspace_id = "w1" ∧ m.user_id = "alice" ∧ m.role = Role.admin) = 1) ∧
     ((createWorkspace (WsDb.mk [] [] []) "Acme" "alice" "w1" true false).2 = none ∧
      (createWorkspace (WsDb.mk [] [] []) "Acme" "alice" "w1" true false).1.workspaces =
        (WsDb.mk [] [] []).workspaces ∧
      (createWorkspace (WsDb.mk [] [] []) "Acme" "alice" "w1" true false).1.memberships =
        (WsDb.mk [] [] []).memberships)) :=
  ⟨by decide, by decide,
    create_workspace_spec (WsDb.mk [] [] []) "Acme" "alice" "w1" (by decide) (by decide)⟩

/-- C9 counterexample: called with the empty name (and a store that
accepts the inserts), `createWorkspace` does not fail: it returns the
new workspace and the workspace row with empty name is inserted, so the
claimed ValidationError-and-no-row behavior does not hold on the code. -/
theorem create_workspace_empty_name_counterexample :
    (createWorkspace (WsDb.mk [] [] []) "" "alice" "w1" true true).2 =
      some { id := "w1", name := "", created_by := some "alice" } ∧
    (createWorkspace (WsDb.mk [] [] []) "" "alice" "w1" true true).1.workspaces =
      [{ id := "w1", name := "", created_by := some "alice" }] := by
  exact ⟨rfl, rfl⟩

/-- C9 amended: `createWorkspace` performs no name validation — for the
empty name it behaves exactly as for any other name, inserting the
workspace row and returning success whenever the store inserts succeed;
the empty-name guard exists only in the UI caller, which returns without
calling the service. -/
theorem create_workspace_no_empty_name_validation (db : WsDb) (userId newId : String) :
    (createWorkspace db "" userId newId true true).2 =
      some { id := newId, name := "", created_by := some userId } ∧
    { id := newId, name := "", created_by := some userId } ∈
      (createWorkspace db "" userId newId true true).1.workspaces := by
  refine ⟨rfl, ?_⟩
  simp [createWorkspace]

/-- C3: `acceptInvitation` never reads `expires_at`.  At the concrete
store holding one invitation with `expires_at = 0`, evaluated at a
current time of 100 (so the invitation is expired), the call succeeds
(no error of any kind, in particular no ExpiredError) and the
membership row is inserted and the invitation deleted — the code
accepts stale invitations silently. -/
theorem accept_invitation_ignores_expiry :
    (Invitation.mk "inv1" "w1" "bob@example.com" Role.member 0).expires_at < 100 ∧
    acceptInvitation
      (WsDb.mk [] [] [Invitation.mk "inv1" "w1" "bob@example.com" Role.member 0])
      "inv1" "bob" true =
      (WsDb.mk [] [Membership.mk "w1" "bob" Role.member] [], false) := by
  exact ⟨by decide, by decide⟩

/-- C10: `acceptInvitation` inserts the membership with exactly the role
stored on the found invitation (the caller supplies no role), and the
invitation row is deleted only after a successful membership insert:
when the membership insert fails, the store is untouched (the
invitation remains) and an error is returned. -/
theorem accept_invitation_role_and_order (db : WsDb) (invId userId : String)
    (inv : Invitation)
    (hfind : (db.invitations.find? fun i => i.id = invId) = some inv) :
    ((acceptInvitation db invId userId true).2 = false ∧
      (acceptInvitation db invId userId true).1.memberships =
        db.memberships ++
          [{ workspace_id := inv.workspace_id, user_id := userId, role := inv.role }] ∧
      (acceptInvitation db invId userId true).1.invitations =
        db.invitations.filter fun i => i.id ≠ invId) ∧
    (acceptInvitation db invId userId false = (db, true)) := by
  refine ⟨?_, ?_⟩ <;> simp [acceptInvitation, hfind]

/-- Witness for C10: a store with one invitation carrying role admin. -/
theorem accept_invitation_role_and_order_witness :
    ((WsDb.mk [] [] [Invitation.mk "inv2" "w2" "carol@example.com" Role.admin 50]).invitations.find?
        fun i => i.id = "inv2") =
      some (Invitation.mk "inv2" "w2" "carol@example.com" Role.admin 50) ∧
    (((acceptInvitation (WsDb.mk [] [] [Invitation.mk "inv2" "w2" "carol@example.com" Role.admin 50])
          "inv2" "carol" true).2 = false ∧
      (acceptInvitation (WsDb.mk [] [] [Invitation.mk "inv2" "w2" "carol@example.com" Role.admin 50])
          "inv2" "carol" true).1.memberships =
        (WsDb.mk [] [] [Invitation.mk "inv2" "w2" "carol@example.com" Role.admin 50]).memberships ++
          [{ workspace_id := "w2", user_id := "carol", role := Role.admin }] ∧
      (acceptInvitation (WsDb.mk [] [] [Invitation.mk "inv2" "w2" "carol@example.com" Role.admin 50])
          "inv2" "carol" true).1.invitations =
        (WsDb.mk [] [] [Invitation.mk "inv2" "w2" "carol@example.com" Role.admin 50]).invitations.filter
          fun i => i.id ≠ "inv2") ∧
     (acceptInvitation (WsDb.mk [] [] [Invitation.mk "inv2" "w2" "carol@example.com" Role.admin 50])
        "inv2" "carol" false =
      (WsDb.mk [] [] [Invitation.mk "inv2" "w2" "carol@example.com" Role.admin 50], true))) :=
  ⟨by decide,
    accept_invitation_role_and_order
      (WsDb.mk [] [] [Invitation.mk "inv2" "w2" "carol@example.com" Role.admin 50])
      "inv2" "carol" (Invitation.mk "inv2" "w2" "carol@example.com" Role.admin 50) (by decide)⟩

/-- Behaviour of the item-insert loop: orders are untouched, the first
`okCount` line items are appended in array order, and the loop throws
exactly when it did not reach the end of the array. -/
theorem insertReorderItems_spec (items : List ReorderLineItem) :
    ∀ (db : PoDb) (orderId : String) (okCount : Nat),
      (insertReorderItems db orderId items okCount).1.orders = db.orders ∧
      (insertReorderItems db orderId items okCount).1.orderItems =
        db.orderItems ++ (items.take okCount).map (mkOrderItemRow orderId) ∧
      ((insertReorderItems db orderId items okCount).2 = decide (okCount < items.length)) := by
  induction items with
  | nil =>
      intro db orderId okCount
      simp [insertReorderItems]
  | cons it rest ih =>
      intro db orderId okCount
      cases okCount with
      | zero => simp [insertReorderItems]
      | succ k =>
          obtain ⟨ho, hi, he⟩ :=
            ih { db with orderItems := db.orderItems ++ [mkOrderItemRow orderId it] }
              orderId k
          refine ⟨ho, ?_, ?_⟩
          · rw [insertReorderItems, hi]
            simp
          · rw [insertReorderItems, he]
            simp [Nat.succ_lt_succ_iff]

/-- C4: with the order insert succeeding and the first `okCount` item
inserts succeeding, `createReorderPurchaseOrder` leaves the order row
with status draft and created_by the given user in the store, the rows
of the order are exactly the first `okCount` input elements in array
order (a failure partway persists the partial item set, with no
rollback), an error is returned iff some item insert failed, and a
failing order insert leaves the store untouched. -/
theorem create_reorder_purchase_order_spec (db : PoDb) (wsId supId : String)
    (items : List ReorderLineItem) (userId : Option String) (newOrderId : String)
    (okCount : Nat)
    (hfresh : ∀ it ∈ db.orderItems, it.purchase_order_id ≠ newOrderId) :
    (PurchaseOrder.mk newOrderId wsId supId POStatus.draft userId ∈
      (createReorderPurchaseOrder db wsId supId items userId newOrderId true okCount).1.orders) ∧
    (itemsOfOrder
        (createReorderPurchaseOrder db wsId supId items userId newOrderId true okCount).1
        newOrderId =
      (items.take okCount).map (mkOrderItemRow newOrderId)) ∧
    (okCount < items.length →
      (createReorderPurchaseOrder db wsId supId items userId newOrderId true okCount).2 = none) ∧
    (items.length ≤ okCount →
      (createReorderPurchaseOrder db wsId supId items userId newOrderId true okCount).2 =
        some (PurchaseOrder.mk newOrderId wsId supId POStatus.draft userId)) ∧
    (createReorderPurchaseOrder db wsId supId items userId newOrderId false okCount =
      (db, none)) := by
  obtain ⟨ho, hi, he⟩ :=
    insertReorderItems_spec items
      { db with orders := db.orders ++ [PurchaseOrder.mk newOrderId wsId supId POStatus.draft userId] }
      newOrderId okCount
  have hres : createReorderPurchaseOrder db wsId supId items userId newOrderId true okCount =
      (let r := insertReorderItems
          { db with orders := db.orders ++ [PurchaseOrder.mk newOrderId wsId supId POStatus.draft userId] }
          newOrderId items okCount
       if r.2 then (r.1, none)
       else (r.1, some (PurchaseOrder.mk newOrderId wsId supId POStatus.draft userId))) := rfl
  refine ⟨?_, ?_, ?_, ?_, rfl⟩
  · rw [hres]
    by_cases hb : (insertReorderItems
        { db with orders := db.orders ++ [PurchaseOrder.mk newOrderId wsId supId POStatus.draft userId] }
        newOrderId items okCount).2 <;>
      simp [hb, ho]
  · rw [hres]
    have hfilter :
        (db.orderItems ++ (items.take okCount).map (mkOrderItemRow newOrderId)).filter
          (fun it => it.purchase_order_id = newOrderId) =
        (items.take okCount).map (mkOrderItemRow newOrderId) := by
      rw [List.filter_append]
      have h1 : db.orderItems.filter (fun it => it.purchase_order_id = newOrderId) = [] := by
        rw [List.filter_eq_nil_iff]
        intro it hit
        simpa using hfresh it hit
      have h2 : ((items.take okCount).map (mkOrderItemRow newOrderId)).filter
          (fun it => it.purchase_order_id = newOrderId) =
          (items.take okCount).map (mkOrderItemRow newOrderId) := by
        rw [List.filter_eq_self]
        intro it hit
        obtain ⟨x, _, hx⟩ := List.mem_map.mp hit
        simp [← hx, mkOrderItemRow]
      rw [h1, h2, List.nil_append]
    by_cases hb : (insertReorderItems
        { db with orders := db.orders ++ [PurchaseOrder.mk newOrderId wsId supId POStatus.draft userId] }
        newOrderId items okCount).2 <;>
      simp only [hb, Bool.false_eq_true, if_true, if_false, itemsOfOrder, hi, hfilter]
  · intro hlt
    rw [hres]
    have : (insertReorderItems
        { db with orders := db.orders ++ [PurchaseOrder.mk newOrderId wsId supId POStatus.draft userId] }
        newOrderId items okCount).2 = true := by
      rw [he]; simpa using hlt
    simp [this]
  · intro hge
    rw [hres]
    have : (insertReorderItems
        { db with orders := db.orders ++ [PurchaseOrder.mk newOrderId wsId supId POStatus.draft userId] }
        newOrderId items okCount).2 = false := by
      rw [he]
      simpa using Nat.not_lt.mpr hge
    simp [this]

/-- Witness for C4: one Widget line item, all inserts succeeding, in the
empty store. -/
theorem create_reorder_purchase_order_spec_witness :
    (∀ it ∈ (PoDb.mk [] []).orderItems, it.purchase_order_id ≠ "po1") ∧
    ((PurchaseOrder.mk "po1" "w1" "s1" POStatus.draft (some "u1") ∈
      (createReorderPurchaseOrder (PoDb.mk [] [])
        "w1" "s1" [ReorderLineItem.mk "itm1" "Widget" 5 (some (5 / 2))]
        (some "u1") "po1" true 1).1.orders) ∧
    (itemsOfOrder
        (createReorderPurchaseOrder (PoDb.mk [] [])
          "w1" "s1" [ReorderLineItem.mk "itm1" "Widget" 5 (some (5 / 2))]
          (some "u1") "po1" true 1).1
        "po1" =
      (([ReorderLineItem.mk "itm1" "Widget" 5 (some (5 / 2))].take 1).map
        (mkOrderItemRow "po1"))) ∧
    (1 < [ReorderLineItem.mk "itm1" "Widget" 5 (some (5 / 2))].length →
      (createReorderPurchaseOrder (PoDb.mk [] [])
        "w1" "s1" [ReorderLineItem.mk "itm1" "Widget" 5 (some (5 / 2))]
        (some "u1") "po1" true 1).2 = none) ∧
    ([ReorderLineItem.mk "itm1" "Widget" 5 (some (5 / 2))].length ≤ 1 →
      (createReorderPurchaseOrder (PoDb.mk [] [])
        "w1" "s1" [ReorderLineItem.mk "itm1" "Widget" 5 (some (5 / 2))]
        (some "u1") "po1" true 1).2 =
        some (PurchaseOrder.mk "po1" "w1" "s1" POStatus.draft (some "u1"))) ∧
    (createReorderPurchaseOrder (PoDb.mk [] [])
        "w1" "s1" [ReorderLineItem.mk "itm1" "Widget" 5 (some (5 / 2))]
        (some "u1") "po1" false 1 =
      (PoDb.mk [] [], none))) :=
  ⟨by decide,
    create_reorder_purchase_order_spec (PoDb.mk [] []) "w1" "s1"
      [ReorderLineItem.mk "itm1" "Widget" 5 (some (5 / 2))]
      (some "u1") "po1" 1 (by decide)⟩

/-- Field-level effect of the SET NULL detach on one inventory item:
only `supplier_id` can change, and it becomes null exactly when it
pointed at the deleted supplier. -/
theorem detachItem_fields (i : InventoryItem) (sid : String) :
    (if i.supplier_id = some sid then { i with supplier_id := none } else i).id = i.id ∧
    (if i.supplier_id = some sid then { i with supplier_id := none } else i).workspace_id =
      i.workspace_id ∧
    (if i.supplier_id = some sid then { i with supplier_id := none } else i).name = i.name ∧
    (if i.supplier_id = some sid then { i with supplier_id := none } else i).sku = i.sku ∧
    (if i.supplier_id = some sid then { i with supplier_id := none } else i).description =
      i.description ∧
    (if i.supplier_id = some sid then { i with supplier_id := none } else i).quantity =
      i.quantity ∧
    (if i.supplier_id = some sid then { i with supplier_id := none } else i).min_quantity =
      i.min_quantity ∧
    (if i.supplier_id = some sid then { i with supplier_id := none } else i).unit_price =
      i.unit_price ∧
    (if i.supplier_id = some sid then { i with supplier_id := none } else i).supplier_id =
      (if i.supplier_id = some sid then none else i.supplier_id) := by
  by_cases hcase : i.supplier_id = some sid <;> simp [hcase]

/-- C6: deleting a supplier referenced by any purchase order is rejected
and the whole store (in particular the supplier row) is unchanged; when
no purchase order references it, the delete succeeds, removes the
supplier row, keeps the orders, and for every inventory item only the
`supplier_id` field can change: it becomes null exactly when it
referenced the deleted supplier, and every other field is unchanged. -/
theorem delete_supplier_spec (db : CatalogDb) (sid : String) :
    (supplierReferencedByOrder db sid = true →
      deleteSupplierRow db sid = (db, true)) ∧
    (supplierReferencedByOrder db sid = false →
      (deleteSupplierRow db sid).2 = false ∧
      (deleteSupplierRow db sid).1.orders = db.orders ∧
      (∀ s ∈ (deleteSupplierRow db sid).1.suppliers, s.id ≠ sid) ∧
      (deleteSupplierRow db sid).1.items.length = db.items.length ∧
      ∀ (k : Nat) (hk : k < db.items.length)
        (hk2 : k < (deleteSupplierRow db sid).1.items.length),
        ((deleteSupplierRow db sid).1.items.get ⟨k, hk2⟩).id =
            (db.items.get ⟨k, hk⟩).id ∧
        ((deleteSupplierRow db sid).1.items.get ⟨k, hk2⟩).workspace_id =
            (db.items.get ⟨k, hk⟩).workspace_id ∧
        ((deleteSupplierRow db sid).1.items.get ⟨k, hk2⟩).name =
            (db.items.get ⟨k, hk⟩).name ∧
        ((deleteSupplierRow db sid).1.items.get ⟨k, hk2⟩).sku =
            (db.items.get ⟨k, hk⟩).sku ∧
        ((deleteSupplierRow db sid).1.items.get ⟨k, hk2⟩).description =
            (db.items.get ⟨k, hk⟩).description ∧
        ((deleteSupplierRow db sid).1.items.get ⟨k, hk2⟩).quantity =
            (db.items.get ⟨k, hk⟩).quantity ∧
        ((deleteSupplierRow db sid).1.items.get ⟨k, hk2⟩).min_quantity =
            (db.items.get ⟨k, hk⟩).min_quantity ∧
        ((deleteSupplierRow db sid).1.items.get ⟨k, hk2⟩).unit_price =
            (db.items.get ⟨k, hk⟩).unit_price ∧
        ((deleteSupplierRow db sid).1.items.get ⟨k, hk2⟩).supplier_id =
            (if (db.items.get ⟨k, hk⟩).supplier_id = some sid then none
             else (db.items.get ⟨k, hk⟩).supplier_id)) := by
  constructor
  · intro hyes
    simp [deleteSupplierRow, hyes]
  · intro hno
    have hstate : deleteSupplierRow db sid =
        ({ suppliers := db.suppliers.filter fun s => s.id ≠ sid
           items := db.items.map fun i =>
             if i.supplier_id = some sid then { i with supplier_id := none } else i
           orders := db.orders }, false) := by
      simp [deleteSupplierRow, hno]
    rw [hstate]
    refine ⟨rfl, rfl, ?_, by simp, ?_⟩
    · intro s hs
      have := (List.mem_filter.mp hs).2
      simpa using this
    · intro k hk hk2
      have hget : (db.items.map fun i =>
          if i.supplier_id = some sid then { i with supplier_id := none } else i).get
            ⟨k, hk2⟩ =
          (fun i => if i.supplier_id = some sid then { i with supplier_id := none } else i)
            (db.items.get ⟨k, hk⟩) := by
        simp [List.getElem_map]
      rw [hget]
      exact detachItem_fields (db.items.get ⟨k, hk⟩) sid

/-- Witness for C6: a store where item itm1 references supplier s1 and no
purchase order does (detach branch), and a store where an order
references s1 (restrict branch). -/
theorem delete_supplier_spec_witness :
    (supplierReferencedByOrder
        (CatalogDb.mk [Supplier.mk "s1" "w1" "Acme Parts"]
          [InventoryItem.mk "itm1" "w1" (some "s1") "Widget" none none 3 5 (some 2)] [])
        "s1" = false ∧
      (deleteSupplierRow
        (CatalogDb.mk [Supplier.mk "s1" "w1" "Acme Parts"]
          [InventoryItem.mk "itm1" "w1" (some "s1") "Widget" none none 3 5 (some 2)] [])
        "s1").2 = false) ∧
    (supplierReferencedByOrder
        (CatalogDb.mk [Supplier.mk "s1" "w1" "Acme Parts"] []
          [PurchaseOrder.mk "po1" "w1" "s1" POStatus.draft none])
        "s1" = true ∧
      deleteSupplierRow
        (CatalogDb.mk [Supplier.mk "s1" "w1" "Acme Parts"] []
          [PurchaseOrder.mk "po1" "w1" "s1" POStatus.draft none])
        "s1" =
      (CatalogDb.mk [Supplier.mk "s1" "w1" "Acme Parts"] []
        [PurchaseOrder.mk "po1" "w1" "s1" POStatus.draft none], true)) :=
  ⟨⟨by decide,
    (((delete_supplier_spec
        (CatalogDb.mk [Supplier.mk "s1" "w1" "Acme Parts"]
          [InventoryItem.mk "itm1" "w1" (some "s1") "Widget" none none 3 5 (some 2)] [])
        "s1").2 (by decide))).1⟩,
   ⟨by decide,
    ((delete_supplier_spec
        (CatalogDb.mk [Supplier.mk "s1" "w1" "Acme Parts"] []
          [PurchaseOrder.mk "po1" "w1" "s1" POStatus.draft none])
        "s1").1 (by decide))⟩⟩

end NovaStock
